import Mathlib

/-!
Verification development for the emergency-room discrete-event simulation
(`Task_1.py`).  The Python program is shallowly embedded: floats become exact
rationals (`ℚ`), the global Mersenne-Twister random generator becomes an
abstract family of draw streams indexed by seed and draw position, fallible
Python code (division that may raise `ZeroDivisionError`) returns `Except`,
and the simpy event loop becomes an explicit event-queue step function.
-/

/-- The four patient types (`random.choices([1, 2, 3, 4], ...)`). -/
inductive PType
  | t1
  | t2
  | t3
  | t4
deriving DecidableEq, Repr

/-- One entry of `stats["patients"]`: `{"id": .., "type": .., "total_time": ..}`. -/
structure PatientRecord where
  id : Nat
  ptype : PType
  total_time : ℚ
deriving DecidableEq, Repr

/-- The only runtime error this program can raise during statistics:
Python's `ZeroDivisionError`. -/
inductive PyError
  | zeroDivision
deriving DecidableEq, Repr

/-- Python's `/` on numbers: raises `ZeroDivisionError` when the divisor is 0. -/
def pydiv (a b : ℚ) : Except PyError ℚ :=
  if b = 0 then Except.error PyError.zeroDivision else Except.ok (a / b)

/-- The list `types[t]` built by the grouping loop of `calc_statistics`
(lines 174-176): the total times of the patients of type `t`, in record
order. -/
def groupTimes (ps : List PatientRecord) (t : PType) : List ℚ :=
  (ps.filter (fun p => p.ptype = t)).map (fun p => p.total_time)

/-- Per-type entry of the results dictionary: `{"count": .., "avg_time": ..}`. -/
structure TypeStat where
  count : Nat
  avg_time : ℚ
deriving DecidableEq, Repr

/-- Per-type statistics loop body (lines 180-187): a non-empty group gets its
size and mean, an empty group gets count 0 and average 0 (the division is
guarded by the `if times:` test, so it cannot raise). -/
def typeStatVal (times : List ℚ) : TypeStat :=
  if times = [] then ⟨0, 0⟩ else ⟨times.length, times.sum / (times.length : ℚ)⟩

/-- The results dictionary of `calc_statistics`.  `standard_deviation` holds
the value of `math.sqrt(...)`; floats are modelled as rationals. -/
structure StatResults where
  overall_avg_time : ℚ
  standard_deviation : ℚ
  types : PType → TypeStat

/-- `calc_statistics` (lines 160-203), parameterized by `msqrt`, the model of
`math.sqrt` on floats (a deterministic function; its value is never needed
symbolically).  The per-type loop runs first and cannot raise; the overall
mean `sum(all_times) / total_patients` raises `ZeroDivisionError` for zero
patients, and the sample standard deviation divides by `total_patients - 1`,
raising for exactly one patient. -/
def calc_statistics (msqrt : ℚ → ℚ) (ps : List PatientRecord) :
    Except PyError StatResults :=
  let total : Nat := ps.length
  let groups : PType → TypeStat := fun t => typeStatVal (groupTimes ps t)
  match pydiv (ps.map (fun p => p.total_time)).sum (total : ℚ) with
  | Except.error e => Except.error e
  | Except.ok overall_avg_time =>
    match pydiv (ps.map (fun p => (p.total_time - overall_avg_time) ^ 2)).sum
        ((total : ℚ) - 1) with
    | Except.error e => Except.error e
    | Except.ok sd_radicand =>
      Except.ok { overall_avg_time := overall_avg_time,
                  standard_deviation := msqrt sd_radicand,
                  types := groups }

/-- The overall mean `sum(all_times) / total_patients`. -/
def overallMean (ps : List PatientRecord) : ℚ :=
  (ps.map (fun p => p.total_time)).sum / (ps.length : ℚ)

/-- The radicand of the standard deviation:
`sum((t_i - mean)^2) / (n - 1)` with the `n-1` divisor of line 199. -/
def sdRadicand (ps : List PatientRecord) : ℚ :=
  (ps.map (fun p => (p.total_time - overallMean ps) ^ 2)).sum /
    ((ps.length : ℚ) - 1)

theorem calc_statistics_ok (msqrt : ℚ → ℚ) (ps : List PatientRecord)
    (h : 2 ≤ ps.length) :
    calc_statistics msqrt ps =
      Except.ok { overall_avg_time := overallMean ps,
                  standard_deviation := msqrt (sdRadicand ps),
                  types := fun t => typeStatVal (groupTimes ps t) } := by
  have h0 : ((ps.length : ℚ)) ≠ 0 := by
    have : ps.length ≠ 0 := by omega
    exact_mod_cast this
  have h1 : ((ps.length : ℚ)) - 1 ≠ 0 := by
    have : (2 : ℚ) ≤ (ps.length : ℚ) := by exact_mod_cast h
    intro hc
    have : (ps.length : ℚ) = 1 := by linarith
    linarith
  simp only [calc_statistics, pydiv, if_neg h0, if_neg h1, overallMean,
    sdRadicand]

/-- The deterministic draw streams of Python's global Mersenne-Twister
generator.  Each field gives, for a seed and an absolute draw position, the
value produced when the position-th call after seeding is the corresponding
`random` function.  `choices4` is the result of
`random.choices([1, 2, 3, 4], weights=[35, 20, 5, 40], k=1)[0]`, which
consumes one underlying draw. -/
structure MT where
  triangular : Nat → Nat → ℚ → ℚ → ℚ → ℚ
  expovariate : Nat → Nat → ℚ → ℚ
  rand : Nat → Nat → ℚ
  choices4 : Nat → Nat → PType

/-- The state of Python's global `random` module: the seed of the last
`random.seed(..)` call and the number of draws consumed since. -/
abbrev RngState := Nat × Nat

/-- `random.seed(10)` (line 138): whatever the generator state was, it is
reset to the fixed seed 10 with no draws consumed. -/
def py_seed (_ : RngState) : RngState := (10, 0)

/-- `triangular_dist(minimum, mode, maximum)` (lines 8-20): wrapper for
`random.triangular`, consuming one draw at position `k`. -/
def triangular_dist (mt : MT) (rng : RngState) (k : Nat)
    (minimum mode maximum : ℚ) : ℚ × Nat :=
  (mt.triangular rng.1 (rng.2 + k) minimum mode maximum, k + 1)

/-- The five simpy resources created by `run_simulation` (lines 141-145). -/
inductive RId
  | registration
  | cw1
  | cw2
  | xray
  | plaster
deriving DecidableEq, Repr

/-- `get_cw_time(cw1, cw2, casualty_ward)` (lines 23-40): a ward-1 patient
draws triangular(1.5, 3.2, 5.0), a ward-2 patient draws
triangular(2.8, 4.1, 6.3), and any other resource falls through to 0
without consuming a draw. -/
def get_cw_time (mt : MT) (rng : RngState) (k : Nat)
    (cw1 cw2 casualty_ward : RId) : ℚ × Nat :=
  if casualty_ward = cw1 then triangular_dist mt rng k 1.5 3.2 5.0
  else if casualty_ward = cw2 then triangular_dist mt rng k 2.8 4.1 6.3
  else (0, k)

/-- A simpy resource: fixed capacity, current number of held units, FIFO
queue of waiting patient ids. -/
structure Res where
  capacity : Nat
  users : Nat
  queue : List Nat
deriving DecidableEq, Repr

/-- Initial resources of `run_simulation`: registration capacity 1, each
casualty ward capacity 2, x-ray capacity 2, plaster capacity 1. -/
def init_res : RId → Res
  | RId.registration => ⟨1, 0, []⟩
  | RId.cw1 => ⟨2, 0, []⟩
  | RId.cw2 => ⟨2, 0, []⟩
  | RId.xray => ⟨2, 0, []⟩
  | RId.plaster => ⟨1, 0, []⟩

/-- Pointwise update of the resource map. -/
def updRes (m : RId → Res) (x : RId) (r : Res) : RId → Res :=
  fun y => if y = x then r else m y

/-- A process multiplexed on the simpy environment: the arrival generator or
the patient with the given index. -/
inductive PId
  | generator
  | pat (i : Nat)
deriving DecidableEq, Repr

/-- A scheduled simpy event: resume process `pid` at simulated time `time`.
`prio` is simpy's event priority (0 = URGENT, used for process
initialization; 1 = NORMAL, used for timeouts and grants) and `seq` the
globally increasing event id; ties in `time` break by `(prio, seq)`. -/
structure Ev where
  time : ℚ
  prio : Nat
  seq : Nat
  pid : PId
deriving DecidableEq, Repr

/-- Strict lexicographic order on event keys `(time, prio, seq)`. -/
def evBefore (a b : Ev) : Bool :=
  if a.time ≠ b.time then decide (a.time < b.time)
  else if a.prio ≠ b.prio then decide (a.prio < b.prio)
  else decide (a.seq < b.seq)

/-- Insert an event into the pending queue, kept sorted by `evBefore`. -/
def insertEv (e : Ev) : List Ev → List Ev
  | [] => [e]
  | x :: xs => if evBefore e x then e :: x :: xs else x :: insertEv e xs

/-- Suspension points of the `patient` coroutine (lines 43-114).  Each
constructor names the `yield` at which the patient is suspended; the chosen
casualty ward is carried once allocated. -/
inductive Phase
  | start
  | waitReg
  | regService
  | waitDoctors (ward : RId)
  | waitWard (ward : RId)
  | wardService (ward : RId)
  | waitXray1 (ward : RId)
  | xrayService1 (ward : RId)
  | waitPlaster (ward : RId)
  | plasterService (ward : RId)
  | waitXray2 (ward : RId)
  | xrayService2 (ward : RId)
  | waitWard2 (ward : RId)
  | wardService2 (ward : RId)
  | departed
deriving DecidableEq, Repr

/-- Per-patient process state: its type, its recorded arrival time and its
current suspension point. -/
structure PatState where
  ptype : PType
  arrival : ℚ
  phase : Phase
deriving DecidableEq, Repr

/-- State of the `generate_patients` coroutine (lines 117-125): not yet
started, suspended in the loop about to spawn patient `i` on resume, or
finished. -/
inductive GenPhase
  | start
  | loop (i : Nat)
  | done
deriving DecidableEq, Repr

/-- The whole simpy environment: clock, event-id counter, pending event
queue, resources, patient processes, generator state, position in the random
stream and the `stats["patients"]` list. -/
structure SimState where
  now : ℚ
  nextSeq : Nat
  queue : List Ev
  res : RId → Res
  pats : Nat → Option PatState
  gen : GenPhase
  k : Nat
  records : List PatientRecord

/-- Schedule process `p` to resume at time `t` with priority `prio`. -/
def schedule (s : SimState) (t : ℚ) (prio : Nat) (p : PId) : SimState :=
  { s with queue := insertEv ⟨t, prio, s.nextSeq, p⟩ s.queue,
           nextSeq := s.nextSeq + 1 }

/-- Overwrite the state of patient `i`. -/
def setPat (s : SimState) (i : Nat) (p : PatState) : SimState :=
  { s with pats := fun j => if j = i then some p else s.pats j }

/-- `resource.request()` followed by `yield req`: if a unit is free it is
taken and the process is scheduled to resume at the current time (one trip
through the event queue, as simpy does for already-triggered events);
otherwise the process joins the FIFO wait queue with no event scheduled. -/
def doRequest (s : SimState) (rid : RId) (i : Nat) : SimState :=
  let r := s.res rid
  if r.users < r.capacity then
    schedule { s with res := updRes s.res rid { r with users := r.users + 1 } }
      s.now 1 (PId.pat i)
  else
    { s with res := updRes s.res rid { r with queue := r.queue ++ [i] } }

/-- `resource.release()` (the `with` block exit): the unit is returned and,
if somebody is waiting, the earliest waiter takes it at the current
simulated time (net held count unchanged in that case). -/
def doRelease (s : SimState) (rid : RId) : SimState :=
  let r := s.res rid
  match r.queue with
  | [] => { s with res := updRes s.res rid { r with users := r.users - 1 } }
  | w :: ws =>
    schedule { s with res := updRes s.res rid { r with queue := ws } }
      s.now 1 (PId.pat w)

/-- Consume one `random.triangular` draw. -/
def drawTri (mt : MT) (rng : RngState) (s : SimState) (a b c : ℚ) :
    ℚ × SimState :=
  let v := triangular_dist mt rng s.k a b c
  (v.1, { s with k := v.2 })

/-- Consume one `random.random()` draw. -/
def drawRand (mt : MT) (rng : RngState) (s : SimState) : ℚ × SimState :=
  (mt.rand rng.1 (rng.2 + s.k), { s with k := s.k + 1 })

/-- Consume one `random.expovariate(lambd)` draw. -/
def drawExp (mt : MT) (rng : RngState) (s : SimState) (lambd : ℚ) :
    ℚ × SimState :=
  (mt.expovariate rng.1 (rng.2 + s.k) lambd, { s with k := s.k + 1 })

/-- Consume one `random.choices([1,2,3,4], ...)` draw. -/
def drawChoice (mt : MT) (rng : RngState) (s : SimState) : PType × SimState :=
  (mt.choices4 rng.1 (rng.2 + s.k), { s with k := s.k + 1 })

/-- `yield env.timeout(d)` for patient `i`, moving it to phase `ph`. -/
def patTimeout (s : SimState) (i : Nat) (pt : PType) (arrival : ℚ)
    (ph : Phase) (d : ℚ) : SimState :=
  schedule (setPat s i ⟨pt, arrival, ph⟩) (s.now + d) 1 (PId.pat i)

/-- Departure (lines 110-114): compute `total_time = env.now - arrival_time`
and append the record to `stats["patients"]`. -/
def depart (s : SimState) (i : Nat) (p : PatState) : SimState :=
  let s1 := setPat s i { p with phase := Phase.departed }
  { s1 with records :=
      s1.records ++ [⟨i, p.ptype, s.now - p.arrival⟩] }

/-- Lines 58-63 of `patient`: after registration is released and the ward
allocated, wait until the doctors arrive (`if env.now < 30: yield
env.timeout(30 - env.now)`) and then request the assigned casualty ward. -/
def proceed_to_ward (s : SimState) (i : Nat) (pt : PType) (arrival : ℚ)
    (ward : RId) : SimState :=
  if s.now < 30 then
    patTimeout s i pt arrival (Phase.waitDoctors ward) (30 - s.now)
  else
    doRequest (setPat s i ⟨pt, arrival, Phase.waitWard ward⟩) ward i

/-- One resumption of the `patient` coroutine (lines 43-114), dispatching on
the suspension point at which it was waiting. -/
def patient_step (mt : MT) (rng : RngState) (s : SimState) (i : Nat)
    (p : PatState) : SimState :=
  match p.phase with
  | Phase.start =>
    doRequest (setPat s i { p with phase := Phase.waitReg }) RId.registration i
  | Phase.waitReg =>
    let v := drawTri mt rng s 0.2 0.5 1.0
    patTimeout v.2 i p.ptype p.arrival Phase.regService v.1
  | Phase.regService =>
    let s1 := doRelease s RId.registration
    let v := drawRand mt rng s1
    let ward := if v.1 < 0.6 then RId.cw1 else RId.cw2
    proceed_to_ward v.2 i p.ptype p.arrival ward
  | Phase.waitDoctors ward =>
    doRequest (setPat s i { p with phase := Phase.waitWard ward }) ward i
  | Phase.waitWard ward =>
    let v := get_cw_time mt rng s.k RId.cw1 RId.cw2 ward
    patTimeout { s with k := v.2 } i p.ptype p.arrival
      (Phase.wardService ward) v.1
  | Phase.wardService ward =>
    let s1 := doRelease s ward
    match p.ptype with
    | PType.t1 =>
      doRequest (setPat s1 i { p with phase := Phase.waitXray1 ward })
        RId.xray i
    | PType.t2 =>
      doRequest (setPat s1 i { p with phase := Phase.waitPlaster ward })
        RId.plaster i
    | PType.t3 =>
      doRequest (setPat s1 i { p with phase := Phase.waitXray1 ward })
        RId.xray i
    | PType.t4 => depart s1 i p
  | Phase.waitXray1 ward =>
    let v := drawTri mt rng s 2.0 2.8 4.1
    patTimeout v.2 i p.ptype p.arrival (Phase.xrayService1 ward) v.1
  | Phase.xrayService1 ward =>
    let s1 := doRelease s RId.xray
    match p.ptype with
    | PType.t1 =>
      doRequest (setPat s1 i { p with phase := Phase.waitWard2 ward }) ward i
    | _ =>
      doRequest (setPat s1 i { p with phase := Phase.waitPlaster ward })
        RId.plaster i
  | Phase.waitPlaster ward =>
    let v := drawTri mt rng s 3.0 3.8 4.7
    patTimeout v.2 i p.ptype p.arrival (Phase.plasterService ward) v.1
  | Phase.plasterService ward =>
    let s1 := doRelease s RId.plaster
    match p.ptype with
    | PType.t3 =>
      doRequest (setPat s1 i { p with phase := Phase.waitXray2 ward })
        RId.xray i
    | _ => depart s1 i p
  | Phase.waitXray2 ward =>
    let v := drawTri mt rng s 2.0 2.8 4.1
    patTimeout v.2 i p.ptype p.arrival (Phase.xrayService2 ward) v.1
  | Phase.xrayService2 ward =>
    let s1 := doRelease s RId.xray
    doRequest (setPat s1 i { p with phase := Phase.waitWard2 ward }) ward i
  | Phase.waitWard2 ward =>
    let v := get_cw_time mt rng s.k RId.cw1 RId.cw2 ward
    patTimeout { s with k := v.2 } i p.ptype p.arrival
      (Phase.wardService2 ward) v.1
  | Phase.wardService2 ward =>
    depart (doRelease s ward) i p
  | Phase.departed => s

/-- One resumption of `generate_patients` (lines 117-125) for a total of
`n` patients: before each spawn the loop drew an interarrival gap and slept;
on resume it draws the patient type, spawns the patient process (simpy
schedules its initialization at the current time with URGENT priority) and,
if patients remain, draws the next gap and sleeps again. -/
def generate_patients_step (mt : MT) (rng : RngState) (n : Nat)
    (s : SimState) : SimState :=
  match s.gen with
  | GenPhase.start =>
    if n = 0 then { s with gen := GenPhase.done }
    else
      let v := drawExp mt rng s (1 / 0.3)
      schedule { v.2 with gen := GenPhase.loop 0 } (v.2.now + v.1) 1
        PId.generator
  | GenPhase.loop i =>
    let v := drawChoice mt rng s
    let s2 := schedule (setPat v.2 i ⟨v.1, v.2.now, Phase.start⟩) v.2.now 0
      (PId.pat i)
    if i + 1 < n then
      let w := drawExp mt rng s2 (1 / 0.3)
      schedule { w.2 with gen := GenPhase.loop (i + 1) } (w.2.now + w.1) 1
        PId.generator
    else { s2 with gen := GenPhase.done }
  | GenPhase.done => s

/-- One iteration of simpy's event loop: pop the earliest pending event,
advance the clock to its timestamp and resume the owning process. -/
def sim_step (mt : MT) (rng : RngState) (n : Nat) (s : SimState) : SimState :=
  match s.queue with
  | [] => s
  | e :: rest =>
    let s1 := { s with now := e.time, queue := rest }
    match e.pid with
    | PId.generator => generate_patients_step mt rng n s1
    | PId.pat i =>
      match s1.pats i with
      | some p => patient_step mt rng s1 i p
      | none => s1

/-- `env.run()`: iterate the event loop until the pending set is empty.
`fuel` bounds the number of iterations (the Python loop simply runs until
no event remains; every theorem quantifies over the bound). -/
def env_run (mt : MT) (rng : RngState) (n : Nat) : Nat → SimState → SimState
  | 0, s => s
  | fuel + 1, s =>
    match s.queue with
    | [] => s
    | _ => env_run mt rng n fuel (sim_step mt rng n s)

/-- The environment of `run_simulation` just before `env.run()`: clock 0,
fresh resources, no patients, the generator's initialization event pending
at time 0. -/
def init_state : SimState :=
  { now := 0, nextSeq := 1, queue := [⟨0, 0, 0, PId.generator⟩],
    res := init_res, pats := fun _ => none, gen := GenPhase.start, k := 0,
    records := [] }

/-- The completed simulation environment for `n` patients. -/
def sim_run (mt : MT) (rng : RngState) (fuel n : Nat) : SimState :=
  env_run mt rng n fuel init_state

/-- Round `x` to the nearest integer, ties to even — the rounding of
Python's fixed-point formatting. -/
def round_half_even (x : ℚ) : ℤ :=
  let f := ⌊x⌋
  if x - f <  1 / 2 then f
  else if 1 / 2 < x - f then f + 1
  else if 2 ∣ f then f else f + 1

/-- `f"{x:.2f}".replace(".", ",")` (lines 233-238): two fixed decimals,
rendered directly with the comma the `replace` call substitutes for the
point.  (The float value is treated as the exact rational it denotes.) -/
def fmt2comma (q : ℚ) : String :=
  let n := round_half_even (q * 100)
  let ip := Int.ediv n 100
  let fp := (Int.emod n 100).toNat
  toString ip ++ "," ++ (if fp < 10 then "0" ++ toString fp else toString fp)

/-- The header row of `save_statistics` (lines 214-220). -/
def csv_header : List String :=
  ["Overall Average Time", "Standard Deviation",
   "Count Type 1", "Avg. Time Type 1",
   "Count Type 2", "Avg. Time Type 2",
   "Count Type 3", "Avg. Time Type 3",
   "Count Type 4", "Avg. Time Type 4"]

/-- The data row of `save_statistics` (lines 232-239): overall average,
standard deviation, then (count, average) for each type in order 1-4;
counts are written as plain integers, every other value with two decimals
and a comma separator. -/
def result_row (r : StatResults) : List String :=
  [fmt2comma r.overall_avg_time, fmt2comma r.standard_deviation,
   toString (r.types PType.t1).count, fmt2comma (r.types PType.t1).avg_time,
   toString (r.types PType.t2).count, fmt2comma (r.types PType.t2).avg_time,
   toString (r.types PType.t3).count, fmt2comma (r.types PType.t3).avg_time,
   toString (r.types PType.t4).count, fmt2comma (r.types PType.t4).avg_time]

/-- `save_statistics` (lines 206-240) on the contents of the target file
(`none` when the file does not exist): a new file gets the header followed
by the data row, an existing file gets the data row appended. -/
def save_statistics (r : StatResults) (file : Option (List (List String))) :
    List (List String) :=
  match file with
  | none => [csv_header, result_row r]
  | some rows => rows ++ [result_row r]

/-- The process-wide mutable state outside one simulation run: the global
random generator and the results CSV file (`none` when absent). -/
structure PyGlobals where
  rng : RngState
  file : Option (List (List String))
deriving DecidableEq, Repr

/-- `run_simulation` (lines 128-157), parameterized by the `math.sqrt`
model, the Mersenne-Twister streams, the `env.run` iteration bound and the
pre-call global state.  It reseeds the global generator with the constant
10, builds a fresh environment, runs it, computes the statistics and saves
them; the function body has no `return`, so the Python return value is
`none`. -/
def run_simulation (msqrt : ℚ → ℚ) (mt : MT) (fuel : Nat) (g : PyGlobals)
    (num_patients : Nat := 250) :
    Except PyError (Option StatResults × PyGlobals) :=
  let rng := py_seed g.rng
  let s := sim_run mt rng fuel num_patients
  match calc_statistics msqrt s.records with
  | Except.error e => Except.error e
  | Except.ok results =>
    Except.ok (none, { rng := (rng.1, rng.2 + s.k),
                       file := some (save_statistics results g.file) })

/-- The per-patient record list produced by one `run_simulation` call from
global state `g` (the `stats["patients"]` list when `env.run()` returns). -/
def run_sim_records (mt : MT) (fuel : Nat) (g : PyGlobals) (n : Nat) :
    List PatientRecord :=
  (sim_run mt (py_seed g.rng) fuel n).records

/-- The summary statistics computed by one `run_simulation` call from
global state `g`. -/
def run_sim_stats (msqrt : ℚ → ℚ) (mt : MT) (fuel : Nat) (g : PyGlobals)
    (n : Nat) : Except PyError StatResults :=
  calc_statistics msqrt (run_sim_records mt fuel g n)

/-- The driver loop `for i in range(0, 2): run_simulation()` (lines
243-245): two runs with the default patient count, threading the global
state. -/
def main_loop (msqrt : ℚ → ℚ) (mt : MT) (fuel : Nat) (g : PyGlobals) :
    Except PyError PyGlobals :=
  match run_simulation msqrt mt fuel g with
  | Except.error e => Except.error e
  | Except.ok (_, g1) =>
    match run_simulation msqrt mt fuel g1 with
    | Except.error e => Except.error e
    | Except.ok (_, g2) => Except.ok g2

/-- A concrete Mersenne-Twister model for concrete runs: every triangular
draw returns its mode, every interarrival gap is 1, `random()` is 1/2 and
every patient is of type 4. -/
def mtConst : MT :=
  { triangular := fun _ _ _ mode _ => mode,
    expovariate := fun _ _ _ => 1,
    rand := fun _ _ => 1 / 2,
    choices4 := fun _ _ => PType.t4 }

/-- Initial global state: unseeded generator, no results file. -/
def gEmpty : PyGlobals := { rng := (0, 0), file := none }

/-- A three-patient record collection with total times 10, 20, 30. -/
def ex3 : List PatientRecord :=
  [⟨0, PType.t1, 10⟩, ⟨1, PType.t2, 20⟩, ⟨2, PType.t3, 30⟩]

/-- A simulation state at clock `t` (used to instantiate step theorems). -/
def wstate (t : ℚ) : SimState := { init_state with now := t }

/-- C1: after releasing registration, a patient whose clock is strictly
below 30 schedules a timeout that resumes at exactly time 30 (whence it
requests its ward), while a patient at or past 30 requests its casualty
ward immediately, with no timeout. -/
theorem patient_waits_for_doctors (mt : MT) (rng : RngState) (s : SimState)
    (i : Nat) (pt : PType) (a : ℚ) (w : RId) :
    (s.now < 30 →
      proceed_to_ward s i pt a w =
        schedule (setPat s i ⟨pt, a, Phase.waitDoctors w⟩) 30 1 (PId.pat i)) ∧
    (30 ≤ s.now →
      proceed_to_ward s i pt a w =
        doRequest (setPat s i ⟨pt, a, Phase.waitWard w⟩) w i) ∧
    patient_step mt rng s i ⟨pt, a, Phase.waitDoctors w⟩ =
      doRequest (setPat s i ⟨pt, a, Phase.waitWard w⟩) w i := by
  refine ⟨fun h => ?_, fun h => ?_, rfl⟩
  · simp only [proceed_to_ward, if_pos h, patTimeout]
    congr 1
    ring
  · simp only [proceed_to_ward, if_neg (not_lt.mpr h)]

/-- Witness for C1 at clocks 10 and 40. -/
theorem patient_waits_for_doctors_witness :
    ((10 : ℚ) < 30 ∧
      proceed_to_ward (wstate 10) 0 PType.t4 10 RId.cw1 =
        schedule (setPat (wstate 10) 0 ⟨PType.t4, 10, Phase.waitDoctors RId.cw1⟩)
          30 1 (PId.pat 0)) ∧
    ((30 : ℚ) ≤ 40 ∧
      proceed_to_ward (wstate 40) 0 PType.t4 40 RId.cw1 =
        doRequest (setPat (wstate 40) 0 ⟨PType.t4, 40, Phase.waitWard RId.cw1⟩)
          RId.cw1 0) :=
  ⟨⟨by norm_num,
    (patient_waits_for_doctors mtConst (10, 0) (wstate 10) 0 PType.t4 10
      RId.cw1).1 (by norm_num [wstate, init_state])⟩,
   ⟨by norm_num,
    (patient_waits_for_doctors mtConst (10, 0) (wstate 40) 0 PType.t4 40
      RId.cw1).2.1 (by norm_num [wstate, init_state])⟩⟩

/-- C2: for at least two patients, `calc_statistics` returns the overall
mean and the standard deviation `sqrt(sum((t_i - mean)^2) / (n - 1))` with
the unbiased `n-1` divisor; on total times 10, 20, 30 the mean is 20 and
(since `sqrt(100) = 10`) the standard deviation is 10. -/
theorem calc_statistics_sample_sd (msqrt : ℚ → ℚ) (ps : List PatientRecord)
    (h : 2 ≤ ps.length) :
    (∃ r, calc_statistics msqrt ps = Except.ok r ∧
      r.overall_avg_time = (ps.map (fun p => p.total_time)).sum /
        (ps.length : ℚ) ∧
      r.standard_deviation =
        msqrt ((ps.map (fun p => (p.total_time - overallMean ps) ^ 2)).sum /
          ((ps.length : ℚ) - 1))) ∧
    (msqrt 100 = 10 →
      ∃ r, calc_statistics msqrt ex3 = Except.ok r ∧
        r.overall_avg_time = 20 ∧ r.standard_deviation = 10) := by
  constructor
  · exact ⟨_, calc_statistics_ok msqrt ps h, rfl, rfl⟩
  · intro h100
    refine ⟨_, calc_statistics_ok msqrt ex3 (by norm_num [ex3]), ?_, ?_⟩
    · show overallMean ex3 = 20
      norm_num [overallMean, ex3]
    · show msqrt (sdRadicand ex3) = 10
      have hm : overallMean ex3 = 20 := by norm_num [overallMean, ex3]
      have h4 : sdRadicand ex3 = 100 := by
        simp only [sdRadicand, hm]
        norm_num [ex3]
      rw [h4, h100]

/-- The exact rational square root is a faithful model of `math.sqrt` on
the perfect square 100. -/
theorem rat_sqrt_100 : Rat.sqrt 100 = 10 := by
  rw [show (100 : ℚ) = 10 * 10 by norm_num, Rat.sqrt_eq]
  norm_num

/-- Witness for C2 on the records with total times 10, 20, 30, with
`math.sqrt` instantiated by the exact rational square root. -/
theorem calc_statistics_sample_sd_witness :
    2 ≤ ex3.length ∧ Rat.sqrt 100 = 10 ∧
    ∃ r, calc_statistics Rat.sqrt ex3 = Except.ok r ∧
      r.overall_avg_time = 20 ∧ r.standard_deviation = 10 :=
  ⟨by norm_num [ex3], rat_sqrt_100,
   (calc_statistics_sample_sd Rat.sqrt ex3 (by norm_num [ex3])).2
     rat_sqrt_100⟩

/-- C3 counterexample: on zero patients `calc_statistics` does crash on a
division by zero — it raises Python's `ZeroDivisionError` at the overall
mean `sum(all_times) / total_patients`, with no degenerate-input guard. -/
theorem calc_statistics_empty_zero_division :
    calc_statistics (fun q => q) [] = Except.error PyError.zeroDivision := by
  norm_num [calc_statistics, pydiv]

/-- C3 amended: on a record collection with zero patients,
`calc_statistics` raises an uncaught `ZeroDivisionError` (at the
overall-mean division); callers must guard against N = 0 themselves. -/
theorem calc_statistics_empty_raises (msqrt : ℚ → ℚ)
    (ps : List PatientRecord) (h : ps.length = 0) :
    calc_statistics msqrt ps = Except.error PyError.zeroDivision := by
  rw [List.length_eq_zero.mp h]
  norm_num [calc_statistics, pydiv]

/-- Witness for the amended C3 at the empty record collection. -/
theorem calc_statistics_empty_raises_witness :
    calc_statistics Rat.sqrt [] = Except.error PyError.zeroDivision :=
  calc_statistics_empty_raises Rat.sqrt [] rfl

/-- C4: whenever `calc_statistics` returns (at least two patients), an
empty type group is reported as count 0 with mean 0, and a non-empty group
as its size and arithmetic mean; the group division only happens with a
non-zero divisor. -/
theorem calc_statistics_per_type (msqrt : ℚ → ℚ) (ps : List PatientRecord)
    (h : 2 ≤ ps.length) (t : PType) :
    ∃ r, calc_statistics msqrt ps = Except.ok r ∧
      (groupTimes ps t = [] → r.types t = ⟨0, 0⟩) ∧
      (groupTimes ps t ≠ [] →
        r.types t = ⟨(groupTimes ps t).length,
          (groupTimes ps t).sum / ((groupTimes ps t).length : ℚ)⟩ ∧
        ((groupTimes ps t).length : ℚ) ≠ 0) := by
  refine ⟨_, calc_statistics_ok msqrt ps h, fun he => ?_, fun hne => ⟨?_, ?_⟩⟩
  · simp [typeStatVal, he]
  · simp [typeStatVal, hne]
  · have hlen : (groupTimes ps t).length ≠ 0 := by
      simpa [List.length_eq_zero] using hne
    exact_mod_cast hlen

/-- Witness for C4: on the 10/20/30 collection, type 4 (empty group) is
reported as count 0 and mean 0, type 1 as count 1 and mean 10. -/
theorem calc_statistics_per_type_witness :
    2 ≤ ex3.length ∧
    (∃ r, calc_statistics Rat.sqrt ex3 = Except.ok r ∧
      r.types PType.t4 = ⟨0, 0⟩) ∧
    (∃ r, calc_statistics Rat.sqrt ex3 = Except.ok r ∧
      r.types PType.t1 = ⟨1, 10⟩) := by
  refine ⟨by norm_num [ex3], ?_, ?_⟩
  · obtain ⟨r, hr, he, -⟩ :=
      calc_statistics_per_type Rat.sqrt ex3 (by norm_num [ex3]) PType.t4
    exact ⟨r, hr, he rfl⟩
  · obtain ⟨r, hr, -, hne⟩ :=
      calc_statistics_per_type Rat.sqrt ex3 (by norm_num [ex3]) PType.t1
    refine ⟨r, hr, ?_⟩
    have hg : groupTimes ex3 PType.t1 = [10] := rfl
    rw [(hne (by simp [hg])).1, hg]
    norm_num

/-- C5 counterexample: `run_simulation` does not return a
`SimulationResult` — called with patient count 0 it raises
`ZeroDivisionError` out of `calc_statistics` (and, per the amended
theorem, even a successful call returns `None`, as the body has no
`return`). -/
theorem run_simulation_returns_no_result :
    run_simulation (fun q => q) mtConst 5 gEmpty 0 =
      Except.error PyError.zeroDivision := by
  norm_num [run_simulation, sim_run, env_run, sim_step,
    generate_patients_step, init_state, py_seed, calc_statistics, pydiv]

/-- C5 amended: `run_simulation` accepts a patient count defaulting to 250
but no seed parameter — it always reseeds the global generator with the
constant 10; and it returns `None`, instead computing the statistics
internally and appending them to the results file. -/
theorem run_simulation_interface :
    (∀ msqrt mt fuel g,
      run_simulation msqrt mt fuel g = run_simulation msqrt mt fuel g 250) ∧
    (∀ msqrt mt fuel g n,
      (∃ e, run_simulation msqrt mt fuel g n = Except.error e) ∨
      (∃ gl, run_simulation msqrt mt fuel g n = Except.ok (none, gl) ∧
        gl.rng.1 = 10 ∧
        ∃ r, run_sim_stats msqrt mt fuel g n = Except.ok r ∧
          gl.file = some (save_statistics r g.file))) := by
  refine ⟨fun _ _ _ _ => rfl, fun msqrt mt fuel g n => ?_⟩
  cases hc : calc_statistics msqrt (sim_run mt (py_seed g.rng) fuel n).records
  case error e =>
    left
    exact ⟨e, by simp [run_simulation, hc]⟩
  case ok r =>
    right
    refine ⟨⟨((py_seed g.rng).1, (py_seed g.rng).2 +
        (sim_run mt (py_seed g.rng) fuel n).k),
      some (save_statistics r g.file)⟩, ?_, rfl, r, ?_, rfl⟩
    · simp [run_simulation, hc]
    · simp [run_sim_stats, run_sim_records, hc]

/-- C6: two runs with the same (fixed) seed and the same patient count —
from arbitrary, possibly different, pre-existing global states — produce
the same per-patient records (ids, types and total times in order) and the
same summary statistics. -/
theorem run_simulation_deterministic (msqrt : ℚ → ℚ) (mt : MT)
    (fuel n : Nat) (g1 g2 : PyGlobals) :
    run_sim_records mt fuel g1 n = run_sim_records mt fuel g2 n ∧
    run_sim_stats msqrt mt fuel g1 n = run_sim_stats msqrt mt fuel g2 n :=
  ⟨rfl, rfl⟩

/-- C7: `get_cw_time` draws triangular(1.5, 3.2, 5.0) when the patient's
ward is `cw1`, triangular(2.8, 4.1, 6.3) when it is `cw2`, and silently
returns 0 (consuming no draw) for any other resource. -/
theorem get_cw_time_cases (mt : MT) (rng : RngState) (k : Nat)
    (cw1 cw2 casualty_ward : RId) :
    (casualty_ward = cw1 →
      get_cw_time mt rng k cw1 cw2 casualty_ward =
        triangular_dist mt rng k 1.5 3.2 5.0) ∧
    (casualty_ward ≠ cw1 → casualty_ward = cw2 →
      get_cw_time mt rng k cw1 cw2 casualty_ward =
        triangular_dist mt rng k 2.8 4.1 6.3) ∧
    (casualty_ward ≠ cw1 → casualty_ward ≠ cw2 →
      get_cw_time mt rng k cw1 cw2 casualty_ward = (0, k)) := by
  refine ⟨fun h1 => ?_, fun h1 h2 => ?_, fun h1 h2 => ?_⟩
  · simp [get_cw_time, h1]
  · subst h2
    simp [get_cw_time, h1]
  · simp [get_cw_time, h1, h2]

/-- Witness for C7 at the concrete resources of the simulation. -/
theorem get_cw_time_cases_witness :
    (get_cw_time mtConst (10, 0) 0 RId.cw1 RId.cw2 RId.cw1 =
      triangular_dist mtConst (10, 0) 0 1.5 3.2 5.0) ∧
    (get_cw_time mtConst (10, 0) 0 RId.cw1 RId.cw2 RId.cw2 =
      triangular_dist mtConst (10, 0) 0 2.8 4.1 6.3) ∧
    (get_cw_time mtConst (10, 0) 0 RId.cw1 RId.cw2 RId.xray = (0, 0)) :=
  ⟨(get_cw_time_cases mtConst (10, 0) 0 RId.cw1 RId.cw2 RId.cw1).1 rfl,
   (get_cw_time_cases mtConst (10, 0) 0 RId.cw1 RId.cw2 RId.cw2).2.1
     (by decide) rfl,
   (get_cw_time_cases mtConst (10, 0) 0 RId.cw1 RId.cw2 RId.xray).2.2
     (by decide) (by decide)⟩

/-- C8: `save_statistics` writes the header followed by the data row when
the file is absent, appends only the data row otherwise; the row is, in
order, overall average, standard deviation, then (count, average) for
types 1-4; and every non-count value is rendered with a comma as the
decimal separator. -/
theorem save_statistics_row_format (r : StatResults)
    (rows : List (List String)) :
    save_statistics r none = [csv_header, result_row r] ∧
    save_statistics r (some rows) = rows ++ [result_row r] ∧
    result_row r =
      [fmt2comma r.overall_avg_time, fmt2comma r.standard_deviation,
       toString (r.types PType.t1).count, fmt2comma (r.types PType.t1).avg_time,
       toString (r.types PType.t2).count, fmt2comma (r.types PType.t2).avg_time,
       toString (r.types PType.t3).count, fmt2comma (r.types PType.t3).avg_time,
       toString (r.types PType.t4).count,
         fmt2comma (r.types PType.t4).avg_time] ∧
    (∀ q : ℚ, ∃ a b : String, fmt2comma q = a ++ "," ++ b) :=
  ⟨rfl, rfl, rfl, fun _ => ⟨_, _, rfl⟩⟩

/-- C9: on a collection with exactly one patient, `calc_statistics` raises
an uncaught `ZeroDivisionError`: the overall-mean division (divisor 1)
succeeds, and the standard-deviation division by `n - 1 = 0` raises. -/
theorem calc_statistics_single_patient (msqrt : ℚ → ℚ)
    (rec : PatientRecord) :
    calc_statistics msqrt [rec] = Except.error PyError.zeroDivision ∧
    pydiv ([rec].map (fun p => p.total_time)).sum (([rec].length : Nat) : ℚ) =
      Except.ok rec.total_time := by
  constructor
  · norm_num [calc_statistics, pydiv]
  · norm_num [pydiv]

/-- C10: `run_simulation` reseeds the global generator with the constant
10 on every call, so its statistics do not depend on the pre-call global
state; consequently the driver's two-run loop — unless it dies with the
statistics error — appends two identical rows to the results file (after a
header when the file was absent). -/
theorem run_simulation_fixed_seed :
    (∀ (g : PyGlobals), py_seed g.rng = (10, 0)) ∧
    (∀ msqrt mt fuel n (g1 g2 : PyGlobals),
      run_sim_stats msqrt mt fuel g1 n = run_sim_stats msqrt mt fuel g2 n) ∧
    (∀ msqrt mt fuel (g : PyGlobals),
      (∃ e, main_loop msqrt mt fuel g = Except.error e) ∨
      (∃ row gl, main_loop msqrt mt fuel g = Except.ok gl ∧
        gl.rng.1 = 10 ∧
        gl.file = some ((match g.file with
          | none => [csv_header]
          | some rows => rows) ++ [row, row]))) := by
  refine ⟨fun _ => rfl, fun _ _ _ _ _ _ => rfl, fun msqrt mt fuel g => ?_⟩
  cases hc : calc_statistics msqrt (sim_run mt (10, 0) fuel 250).records
  case error e =>
    left
    exact ⟨e, by simp [main_loop, run_simulation, py_seed, hc]⟩
  case ok r =>
    right
    have h1 : ∀ gg : PyGlobals, run_simulation msqrt mt fuel gg =
        Except.ok (none, ⟨(10, 0 + (sim_run mt (10, 0) fuel 250).k),
          some (save_statistics r gg.file)⟩) := by
      intro gg
      simp [run_simulation, py_seed, hc]
    refine ⟨result_row r,
      ⟨(10, 0 + (sim_run mt (10, 0) fuel 250).k),
        some (save_statistics r (some (save_statistics r g.file)))⟩,
      ?_, rfl, ?_⟩
    · simp [main_loop, h1]
    · cases g.file
      case none => simp [save_statistics]
      case some rows => simp [save_statistics]
